import Mathlib

set_option maxRecDepth 8192

/-!
Shallow embedding of `blink-poller/blink_snapshot.py` (a camera-snapshot
polling daemon) and proofs about its polling, upload, persistence and CLI
dispatch behaviour.

The program is sequential glue around two external services: the Blink
camera cloud (login / refresh / cached thumbnails / snapshot requests) and
a Supabase storage bucket (one HTTP PUT per image).  The embedding models
the external world explicitly: HTTP responses, refresh failures and
snapshot-request failures are inputs, and each operation returns the trace
of uploads, log lines and exceptions it produces.
-/

namespace BlinkSnapshot

/-- Bytes are modelled as lists of naturals. -/
abbrev Bytes := List Nat

/-- One camera as the poller sees it: its name and the cached thumbnail
(`camera.image_from_cache`), which may be absent (`None`). -/
structure Device where
  name : String
  image : Option Bytes
deriving DecidableEq

/-- Outcome of the single `urllib.request.urlopen` call inside
`upload_to_supabase`: a returned response with an HTTP status, a raised
`urllib.error.HTTPError` carrying a status code and a response body, or
any other raised exception (timeouts, connection errors, ...). -/
inductive HttpResult
  | ok (status : Nat)
  | httpError (code : Nat) (body : List Char)
  | exn (msg : String)
deriving DecidableEq

/-- Structured form of the single-line log entries the program emits. -/
inductive LogEntry
  | uploadedInfo (path : String) (size : Nat)
  | uploadFailed (code : Nat) (bodyExcerpt : List Char)
  | uploadError (msg : String)
  | warnNoThumbnail (name : String)
  | infoSnapRequested (name : String)
  | warnSnapFailed (name : String) (msg : String)
  | errorPollError (msg : String)
deriving DecidableEq

/-- `SNAPSHOT_PATH = 'cameras/blink-latest.jpg'`: the shared "latest"
alias path used for the first enumerated camera. -/
def SNAPSHOT_PATH : String := "cameras/blink-latest.jpg"

/-- Character-level effect of `name.lower().replace(' ', '-').replace('/', '-')`
(each pattern is a single character, so the two `replace` calls act
character-wise). -/
def slugChar (c : Char) : Char :=
  let lc := c.toLower
  let r1 := if lc = ' ' then '-' else lc
  if r1 = '/' then '-' else r1

/-- `safe_name = name.lower().replace(' ', '-').replace('/', '-')`. -/
def slugify (s : String) : String :=
  String.mk (s.data.map slugChar)

/-- `f'cameras/blink-{safe_name}-latest.jpg'`: the stable per-device path. -/
def devicePath (name : String) : String :=
  "cameras/blink-" ++ slugify name ++ "-latest.jpg"

/-- Result of one `upload_to_supabase` call: the returned boolean, the log
lines emitted, how many HTTP requests were issued, and the exception
propagated to the caller (always `none`: both `except` clauses catch). -/
structure UploadResult where
  ok : Bool
  logs : List LogEntry
  requests : Nat
  raised : Option String
deriving DecidableEq

/-- `upload_to_supabase(jpeg_bytes, path)`: builds one PUT request and calls
`urlopen` exactly once.  A returned response counts as success only when
`resp.status in (200, 201)` (logged); any other returned status falls out
of the `with` block and returns `False` with no log.  A raised `HTTPError`
is logged with its code and the first 200 characters of the body; any
other exception is logged with its message.  Nothing propagates. -/
def upload_to_supabase (resp : HttpResult) (jpeg : Bytes) (path : String) :
    UploadResult :=
  match resp with
  | .ok status =>
    if status = 200 ∨ status = 201 then
      { ok := true, logs := [LogEntry.uploadedInfo path jpeg.length],
        requests := 1, raised := none }
    else
      { ok := false, logs := [], requests := 1, raised := none }
  | .httpError code body =>
    { ok := false, logs := [LogEntry.uploadFailed code (body.take 200)],
      requests := 1, raised := none }
  | .exn msg =>
    { ok := false, logs := [LogEntry.uploadError msg],
      requests := 1, raised := none }

/-- The thumbnail-skip test `not jpeg or len(jpeg) < 100` of `poll_once`
(`not jpeg` is true for `None` and for empty bytes). -/
def thumbnailMissing : Option Bytes → Bool
  | none => true
  | some b => b.isEmpty || decide (b.length < 100)

/-- A device whose cached image passes the skip test. -/
def hasValidImage (d : Device) : Bool :=
  !(thumbnailMissing d.image)

/-- Trace of processing one enumerated device inside `poll_once`:
the upload calls issued (path and byte payload), the log lines, and the
number of HTTP requests consumed. -/
structure StepOut where
  uploads : List (String × Bytes)
  logs : List LogEntry
  requests : Nat
deriving DecidableEq

/-- The body of `poll_once`'s device loop for the device at enumeration
index `i`, with `k` HTTP requests already issued this cycle: skip with a
warning when the cached thumbnail is missing or under 100 bytes, otherwise
upload to the per-device path, and additionally — only when `i == 0` — to
the shared `SNAPSHOT_PATH`, reusing the same `jpeg` value read once. -/
def deviceStep (responses : Nat → HttpResult) (i k : Nat) (d : Device) :
    StepOut :=
  match d.image with
  | none =>
    { uploads := [], logs := [LogEntry.warnNoThumbnail d.name], requests := 0 }
  | some b =>
    if b.isEmpty || decide (b.length < 100) then
      { uploads := [], logs := [LogEntry.warnNoThumbnail d.name], requests := 0 }
    else
      let u1 := upload_to_supabase (responses k) b (devicePath d.name)
      if i = 0 then
        let u2 := upload_to_supabase (responses (k + 1)) b SNAPSHOT_PATH
        { uploads := [(devicePath d.name, b), (SNAPSHOT_PATH, b)],
          logs := u1.logs ++ u2.logs,
          requests := u1.requests + u2.requests }
      else
        { uploads := [(devicePath d.name, b)],
          logs := u1.logs,
          requests := u1.requests }

/-- The device loop `for i, (name, camera) in enumerate(blink.cameras.items())`
of `poll_once`, threading the enumeration index and the HTTP request
counter through the devices in order. -/
def processDevices (responses : Nat → HttpResult) :
    Nat → Nat → List Device → StepOut
  | _, _, [] => { uploads := [], logs := [], requests := 0 }
  | i, k, d :: rest =>
    let s := deviceStep responses i k d
    let r := processDevices responses (i + 1) (k + s.requests) rest
    { uploads := s.uploads ++ r.uploads,
      logs := s.logs ++ r.logs,
      requests := s.requests + r.requests }

/-- Trace of the opportunistic-capture pass. -/
structure CaptureOut where
  captures : List String
  logs : List LogEntry
deriving DecidableEq

/-- The capture pass `for name, camera in blink.cameras.items(): try
snap_picture ... except log` of `poll_once`: every device is attempted in
order; a per-device failure (`snapError` yields a message) is logged as a
warning and the loop continues. -/
def captureAll (snapError : String → Option String) :
    List Device → CaptureOut
  | [] => { captures := [], logs := [] }
  | d :: rest =>
    let here : CaptureOut :=
      match snapError d.name with
      | none =>
        { captures := [d.name], logs := [LogEntry.infoSnapRequested d.name] }
      | some e =>
        { captures := [d.name], logs := [LogEntry.warnSnapFailed d.name e] }
    let r := captureAll snapError rest
    { captures := here.captures ++ r.captures, logs := here.logs ++ r.logs }

/-- External inputs to one poll cycle: whether `blink.refresh(force=True)`
raises, the HTTP response to the `k`-th upload request of the cycle, the
value of the cycle's single `random.random()` draw, and whether
`camera.snap_picture()` raises for a given camera name. -/
structure PollEnv where
  refreshError : Option String
  responses : Nat → HttpResult
  randomDraw : ℚ
  snapError : String → Option String

/-- Trace of one `poll_once(blink)` call. -/
structure PollResult where
  uploads : List (String × Bytes)
  logs : List LogEntry
  captures : List String
  requests : Nat
  raised : Option String

/-- `poll_once(blink)`: first `await blink.refresh(force=True)` — this call
is not wrapped in any `try`, so a refresh failure propagates to the caller
and nothing else runs.  Otherwise the device loop runs, then, when the
cycle's single `random.random()` draw is below `0.2`, the capture pass
runs over every device. -/
def poll_once (cams : List Device) (env : PollEnv) : PollResult :=
  match env.refreshError with
  | some e =>
    { uploads := [], logs := [], captures := [], requests := 0,
      raised := some e }
  | none =>
    let s := processDevices env.responses 0 0 cams
    let c :=
      if env.randomDraw < (0.2 : ℚ) then captureAll env.snapError cams
      else { captures := [], logs := [] }
    { uploads := s.uploads, logs := s.logs ++ c.logs, captures := c.captures,
      requests := s.requests, raised := none }

/-- The body of the daemon's `while True` loop over a finite list of cycle
environments: each iteration runs `poll_once` inside `try/except`, logging
a propagated exception as `Poll error` and continuing.  The second
component counts `blink.save` calls performed by the loop; the loop body
(lines 208–213 of the source) contains none, so no iteration increments
it. -/
def run_daemon_loop (cams : List Device) :
    List PollEnv → List LogEntry × Nat
  | [] => ([], 0)
  | env :: rest =>
    let r := poll_once cams env
    let here :=
      match r.raised with
      | some e => r.logs ++ [LogEntry.errorPollError e]
      | none => r.logs
    let t := run_daemon_loop cams rest
    (here ++ t.1, t.2)

/-- External inputs to `once` mode: whether the credential load plus
`blink.start()` step raises, and the poll cycle's environment. -/
structure OnceEnv where
  startError : Option String
  pollEnv : PollEnv

/-- Trace of one `--once` invocation. -/
structure OnceResult where
  cycles : Nat
  saves : Nat
  raised : Option String
  logs : List LogEntry

/-- The `--once` branch of `main`: `blink.start()`, then `poll_once`, then
`blink.save(CRED_FILE)`.  No step is wrapped in `try`, so a start failure
skips the cycle and the save, and a poll failure (refresh error) skips the
save; in either case the exception propagates out of `asyncio.run`. -/
def run_once (cams : List Device) (env : OnceEnv) : OnceResult :=
  match env.startError with
  | some e => { cycles := 0, saves := 0, raised := some e, logs := [] }
  | none =>
    let r := poll_once cams env.pollEnv
    match r.raised with
    | some e => { cycles := 1, saves := 0, raised := some e, logs := r.logs }
    | none => { cycles := 1, saves := 1, raised := none, logs := r.logs }

/-- Process exit status of a `--once` invocation: a Python process exits 0
when `main` returns and 1 when an uncaught exception terminates it. -/
def once_exit_code (r : OnceResult) : Nat :=
  if r.raised.isSome then 1 else 0

/-- Outcome of the initial `blink.start()` inside `setup_blink`. -/
inductive StartOutcome
  | ok
  | twoFARequired
  | err (e : String)
deriving DecidableEq

/-- External inputs to `setup_blink`: the start outcome, the `--pin`
argument, whether `auth.complete_2fa_login(pin)` returns a truthy result,
and whether the post-2FA restart / `setup_post_verify` calls raise (both
are swallowed by the source and do not affect saving). -/
structure SetupEnv where
  startOutcome : StartOutcome
  pin : Option String
  pinAccepted : Bool
  restartError : Option String
  postVerifyError : Option String

/-- Trace of one `--setup` invocation. -/
structure SetupResult where
  saves : Nat
  raised : Option String

/-- `setup_blink(pin)`: a non-2FA start failure is re-raised; a clean start
falls through to `blink.save(CRED_FILE)`; when 2FA is required, the run
returns without saving unless a pin was given and accepted, in which case
the restart errors are swallowed and the save still happens. -/
def setup_blink (env : SetupEnv) : SetupResult :=
  match env.startOutcome with
  | .err e => { saves := 0, raised := some e }
  | .ok => { saves := 1, raised := none }
  | .twoFARequired =>
    match env.pin with
    | none => { saves := 0, raised := none }
    | some _ =>
      if env.pinAccepted then { saves := 1, raised := none }
      else { saves := 0, raised := none }

/-- The configuration values `main` inspects, as read from the environment
(`os.environ.get(..., '')`): an unset variable is the empty string.
`SUPABASE_URL` is absent here because `main` never checks it — it falls
back to a hard-coded default project URL. -/
structure MainConfig where
  blinkEmail : String
  blinkPassword : String
  supabaseKey : String
deriving DecidableEq

/-- Output channel of a console message. -/
inductive Chan
  | stdout
  | stderr
deriving DecidableEq

/-- What `main` does before any network activity: either terminate via
`sys.exit` after printing a message, or dispatch to one of the three run
modes (which is where all network activity lives). -/
inductive MainAction
  | exitWith (code : Nat) (chan : Chan) (msg : String)
  | runSetup (pin : Option String)
  | runOnceMode
  | runDaemonMode
deriving DecidableEq

/-- The `--pin` argument extraction: `sys.argv.index('--pin') + 1` when
`'--pin' in sys.argv` and that index is in range, else no pin. -/
def pinArg (argv : List String) : Option String :=
  if argv.contains "--pin" then argv.get? (argv.indexOf "--pin" + 1)
  else none

/-- `main()`: the two credential checks run first — `print` writes to
standard output, then `sys.exit(1)` — and only then does argument
inspection choose a run mode.  Unrecognized invocations fall through to
daemon mode. -/
def main (cfg : MainConfig) (argv : List String) : MainAction :=
  if cfg.blinkEmail = "" ∨ cfg.blinkPassword = "" then
    MainAction.exitWith 1 Chan.stdout "BLINK_EMAIL and BLINK_PASSWORD are required"
  else if cfg.supabaseKey = "" then
    MainAction.exitWith 1 Chan.stdout "SUPABASE_SERVICE_ROLE_KEY is required"
  else if argv.contains "--setup" then
    MainAction.runSetup (pinArg argv)
  else if argv.contains "--once" then
    MainAction.runOnceMode
  else
    MainAction.runDaemonMode

/-! Concrete fixtures used by the witness and counterexample theorems. -/

/-- A camera with a valid 120-byte cached thumbnail. -/
def devFront : Device := { name := "Front Door", image := some (List.replicate 120 7) }

/-- A second camera with a valid 150-byte cached thumbnail. -/
def devBack : Device := { name := "Back/Yard", image := some (List.replicate 150 9) }

/-- A camera whose cached thumbnail is only 50 bytes (under the 100-byte
sanity threshold). -/
def devSmall : Device := { name := "Garage", image := some (List.replicate 50 1) }

/-- A benign cycle environment: refresh succeeds, every upload gets HTTP
200, the random draw (1/2) is above the capture threshold, no snapshot
request fails. -/
def envOKW : PollEnv :=
  { refreshError := none, responses := fun _ => HttpResult.ok 200,
    randomDraw := (1 : ℚ) / 2, snapError := fun _ => none }

/-- A cycle environment whose forced refresh raises. -/
def envRefreshFailW : PollEnv :=
  { refreshError := some "refresh timeout", responses := fun _ => HttpResult.ok 200,
    randomDraw := (1 : ℚ) / 2, snapError := fun _ => none }

/-- A cycle environment where every upload request raises a timeout and
every snapshot request fails, but the refresh succeeds. -/
def envUploadFailW : PollEnv :=
  { refreshError := none, responses := fun _ => HttpResult.exn "timeout",
    randomDraw := (1 : ℚ) / 2, snapError := fun _ => some "api error" }

/-- A cycle environment whose random draw (0) is below 0.2, with the
snapshot request for the first camera failing. -/
def envCaptureW : PollEnv :=
  { refreshError := none, responses := fun _ => HttpResult.ok 200,
    randomDraw := 0,
    snapError := fun n => if n = "Front Door" then some "boom" else none }

/-- A `--once` environment whose start and refresh both succeed. -/
def onceEnvOKW : OnceEnv := { startError := none, pollEnv := envOKW }

/-- A `--once` environment whose start succeeds but whose refresh raises. -/
def onceEnvRefreshFailW : OnceEnv := { startError := none, pollEnv := envRefreshFailW }

/-- A setup run where login succeeds without 2FA. -/
def setupOkW : SetupEnv :=
  { startOutcome := StartOutcome.ok, pin := none, pinAccepted := false,
    restartError := none, postVerifyError := none }

/-- A setup run where 2FA is required and the supplied pin is accepted. -/
def setup2faW : SetupEnv :=
  { startOutcome := StartOutcome.twoFARequired, pin := some "123456",
    pinAccepted := true, restartError := some "restart failed",
    postVerifyError := none }

/-- A configuration with the Blink credential pair unset. -/
def cfgNoBlinkW : MainConfig :=
  { blinkEmail := "", blinkPassword := "", supabaseKey := "k" }

/-- A configuration with the storage service key unset. -/
def cfgNoKeyW : MainConfig :=
  { blinkEmail := "user@example.com", blinkPassword := "pw", supabaseKey := "" }

/-! Helper lemmas shared by the claim theorems. -/

theorem slugify_length (s : String) : (slugify s).length = s.length := by
  rw [slugify]
  show (s.data.map slugChar).length = s.length
  rw [List.length_map]
  rfl

theorem devicePath_length (name : String) :
    (devicePath name).length = name.length + 25 := by
  have h1 : ("cameras/blink-" : String).length = 14 := rfl
  have h2 : ("-latest.jpg" : String).length = 11 := rfl
  rw [devicePath, String.length_append, String.length_append, slugify_length,
    h1, h2]
  omega

theorem devicePath_ne_snapshot (name : String) :
    devicePath name ≠ SNAPSHOT_PATH := by
  intro h
  have hl := congrArg String.length h
  rw [devicePath_length] at hl
  have h24 : SNAPSHOT_PATH.length = 24 := rfl
  rw [h24] at hl
  omega

theorem upload_requests_one (resp : HttpResult) (jpeg : Bytes) (path : String) :
    (upload_to_supabase resp jpeg path).requests = 1 := by
  cases resp with
  | ok s => by_cases h : s = 200 ∨ s = 201 <;> simp [upload_to_supabase, h]
  | httpError c b => rfl
  | exn m => rfl

theorem upload_raised_none (resp : HttpResult) (jpeg : Bytes) (path : String) :
    (upload_to_supabase resp jpeg path).raised = none := by
  cases resp with
  | ok s => by_cases h : s = 200 ∨ s = 201 <;> simp [upload_to_supabase, h]
  | httpError c b => rfl
  | exn m => rfl

theorem upload_ok_iff (resp : HttpResult) (jpeg : Bytes) (path : String) :
    (upload_to_supabase resp jpeg path).ok = true ↔
      (resp = HttpResult.ok 200 ∨ resp = HttpResult.ok 201) := by
  cases resp with
  | ok s => by_cases h : s = 200 ∨ s = 201 <;> simp [upload_to_supabase, h]
  | httpError c b => simp [upload_to_supabase]
  | exn m => simp [upload_to_supabase]

theorem deviceStep_missing (responses : Nat → HttpResult) (i k : Nat)
    (d : Device) (h : thumbnailMissing d.image = true) :
    deviceStep responses i k d =
      { uploads := [], logs := [LogEntry.warnNoThumbnail d.name],
        requests := 0 } := by
  rcases d with ⟨name, img⟩
  cases img with
  | none => rfl
  | some b =>
    have hb : (b.isEmpty || decide (b.length < 100)) = true := by
      simpa [thumbnailMissing] using h
    simp [deviceStep, hb]

theorem processDevices_skip (responses : Nat → HttpResult) (i k : Nat)
    (d : Device) (rest : List Device) (h : thumbnailMissing d.image = true) :
    processDevices responses i k (d :: rest) =
      { uploads := (processDevices responses (i + 1) k rest).uploads,
        logs := LogEntry.warnNoThumbnail d.name ::
          (processDevices responses (i + 1) k rest).logs,
        requests := (processDevices responses (i + 1) k rest).requests } := by
  simp [processDevices, deviceStep_missing responses i k d h]

theorem processDevices_length_valid (responses : Nat → HttpResult) :
    ∀ (rest : List Device) (i k : Nat), i ≠ 0 →
      (∀ d ∈ rest, hasValidImage d = true) →
      (processDevices responses i k rest).uploads.length = rest.length := by
  intro rest
  induction rest with
  | nil => intro i k _ _; rfl
  | cons d tl ih =>
    intro i k hi hv
    have hd : hasValidImage d = true := hv d (by simp)
    rcases d with ⟨name, img⟩
    cases img with
    | none => simp [hasValidImage, thumbnailMissing] at hd
    | some b =>
      have hcond : (b.isEmpty || decide (b.length < 100)) = false := by
        simpa [hasValidImage, thumbnailMissing] using hd
      have ihtl := ih (i + 1) (k + 1) (by omega)
        (fun d hd2 => hv d (List.mem_cons_of_mem _ hd2))
      simp [processDevices, deviceStep, hcond, hi, upload_requests_one]
      omega

theorem processDevices_no_snapshot (responses : Nat → HttpResult) :
    ∀ (rest : List Device) (i k : Nat), i ≠ 0 →
      ∀ p ∈ (processDevices responses i k rest).uploads,
        p.1 ≠ SNAPSHOT_PATH := by
  intro rest
  induction rest with
  | nil => intro i k _ p hp; simp [processDevices] at hp
  | cons d tl ih =>
    intro i k hi p hp
    rcases d with ⟨name, img⟩
    cases img with
    | none =>
      rw [processDevices_skip responses i k _ tl (by rfl)] at hp
      exact ih (i + 1) k (by omega) p hp
    | some b =>
      by_cases hcond : (b.isEmpty || decide (b.length < 100)) = true
      · rw [processDevices_skip responses i k _ tl
          (by simpa [thumbnailMissing] using hcond)] at hp
        exact ih (i + 1) k (by omega) p hp
      · rw [Bool.not_eq_true] at hcond
        simp [processDevices, deviceStep, hcond, hi, upload_requests_one] at hp
        rcases hp with h1 | h2
        · rw [h1]
          exact devicePath_ne_snapshot name
        · exact ih (i + 1) (k + 1) (by omega) p h2

theorem processDevices_warn_mem (responses : Nat → HttpResult) :
    ∀ (rest : List Device) (i k : Nat) (d : Device), d ∈ rest →
      thumbnailMissing d.image = true →
      LogEntry.warnNoThumbnail d.name ∈
        (processDevices responses i k rest).logs := by
  intro rest
  induction rest with
  | nil => intro i k d hd; simp at hd
  | cons d0 tl ih =>
    intro i k d hd hmiss
    rcases List.mem_cons.mp hd with h0 | htl
    · subst h0
      rw [processDevices_skip responses i k d tl hmiss]
      exact List.mem_cons_self _ _
    · show _ ∈ (processDevices responses i k (d0 :: tl)).logs
      simp only [processDevices]
      exact List.mem_append_right _ (ih (i + 1) _ d htl hmiss)

theorem raised_none_of_refresh_none (cams : List Device) (env : PollEnv)
    (hr : env.refreshError = none) : (poll_once cams env).raised = none := by
  simp [poll_once, hr]

theorem poll_once_uploads_eq (cams : List Device) (env : PollEnv)
    (hr : env.refreshError = none) :
    (poll_once cams env).uploads =
      (processDevices env.responses 0 0 cams).uploads := by
  simp [poll_once, hr]

theorem poll_once_logs_eq (cams : List Device) (env : PollEnv)
    (hr : env.refreshError = none) :
    (poll_once cams env).logs =
      (processDevices env.responses 0 0 cams).logs ++
        (if env.randomDraw < (0.2 : ℚ) then captureAll env.snapError cams
         else { captures := [], logs := [] }).logs := by
  simp [poll_once, hr]

theorem poll_once_captures_eq (cams : List Device) (env : PollEnv)
    (hr : env.refreshError = none) :
    (poll_once cams env).captures =
      (if env.randomDraw < (0.2 : ℚ) then captureAll env.snapError cams
       else { captures := [], logs := [] }).captures := by
  simp [poll_once, hr]

theorem captureAll_captures_eq (snapError : String → Option String) :
    ∀ cams : List Device,
      (captureAll snapError cams).captures = cams.map Device.name := by
  intro cams
  induction cams with
  | nil => rfl
  | cons d tl ih =>
    cases h : snapError d.name <;> simp [captureAll, h, ih]

theorem captureAll_warn_mem (snapError : String → Option String) :
    ∀ (cams : List Device) (d : Device) (e : String), d ∈ cams →
      snapError d.name = some e →
      LogEntry.warnSnapFailed d.name e ∈ (captureAll snapError cams).logs := by
  intro cams
  induction cams with
  | nil => intro d e hd; simp at hd
  | cons d0 tl ih =>
    intro d e hd he
    rcases List.mem_cons.mp hd with h0 | htl
    · subst h0
      simp [captureAll, he]
    · cases h : snapError d0.name <;>
        simp [captureAll, h, ih d e htl he]

theorem daemon_loop_saves_zero (cams : List Device) :
    ∀ envs : List PollEnv, (run_daemon_loop cams envs).2 = 0 := by
  intro envs
  induction envs with
  | nil => rfl
  | cons env tl ih => simpa [run_daemon_loop] using ih

/-! The claim theorems. -/

/-- C1: for a device list of size N = `rest.length + 1` whose every member
(and in particular the primary device at index 0) has a valid cached image,
one poll cycle issues exactly N + 1 upload calls, and the first two are the
primary device's per-device upload and the shared-alias upload, both
carrying the same byte payload `b` obtained from the cycle's single
cached-image read of that device. -/
theorem cycle_uploads_count_and_alias_payload (name : String) (b : Bytes)
    (rest : List Device) (env : PollEnv)
    (hr : env.refreshError = none) (hb : 100 ≤ b.length)
    (hrest : ∀ d ∈ rest, hasValidImage d = true) :
    (poll_once ({ name := name, image := some b } :: rest) env).uploads.length
        = (rest.length + 1) + 1 ∧
    (poll_once ({ name := name, image := some b } :: rest) env).uploads.take 2
        = [(devicePath name, b), (SNAPSHOT_PATH, b)] := by
  rw [poll_once_uploads_eq _ _ hr]
  have hcond : (b.isEmpty || decide (b.length < 100)) = false := by
    cases b with
    | nil => simp at hb
    | cons x xs =>
      simp at hb ⊢
      omega
  have hlen := processDevices_length_valid env.responses rest 1 2 (by omega) hrest
  constructor
  · simp [processDevices, deviceStep, hcond, upload_requests_one]
    omega
  · simp [processDevices, deviceStep, hcond, upload_requests_one]

/-- C1 witness: a two-device cycle issues three uploads, the first two
being the primary per-device upload and the alias upload of the same
bytes. -/
theorem cycle_uploads_count_and_alias_payload_witness :
    (poll_once ({ name := "Front Door", image := some (List.replicate 120 7) }
        :: [devBack]) envOKW).uploads.length = ([devBack].length + 1) + 1 ∧
    (poll_once ({ name := "Front Door", image := some (List.replicate 120 7) }
        :: [devBack]) envOKW).uploads.take 2
      = [(devicePath "Front Door", List.replicate 120 7),
         (SNAPSHOT_PATH, List.replicate 120 7)] :=
  cycle_uploads_count_and_alias_payload "Front Door" (List.replicate 120 7)
    [devBack] envOKW rfl (by decide) (by decide)

/-- C2 counterexample: `poll_once` does not wrap the forced refresh in any
`try`, so a refresh failure is raised to the caller — the claim that one
poll cycle never raises an exception to its caller is false on the code. -/
theorem cycle_raises_refresh_error_to_caller :
    (poll_once [devFront] envRefreshFailW).raised = some "refresh timeout" := rfl

/-- C2 amended: whenever the forced session refresh succeeds, a poll cycle
raises nothing to its caller, for every combination of upload failures,
missing images and capture-request failures; only a refresh failure
propagates (the daemon loop catches it outside the cycle). -/
theorem cycle_no_raise_when_refresh_ok (cams : List Device) (env : PollEnv)
    (hr : env.refreshError = none) : (poll_once cams env).raised = none :=
  raised_none_of_refresh_none cams env hr

/-- C2 witness: a cycle in which every upload raises a timeout and every
capture request fails still raises nothing to its caller. -/
theorem cycle_no_raise_when_refresh_ok_witness :
    (poll_once [devFront] envUploadFailW).raised = none :=
  cycle_no_raise_when_refresh_ok [devFront] envUploadFailW rfl

/-- C3 counterexample: a daemon-loop iteration whose poll cycle completes
(raises nothing) performs zero session saves — the claim that the session
is persisted after each completed poll cycle in any run mode is false on
the code. -/
theorem daemon_completed_cycle_without_persist :
    (poll_once [devFront] envOKW).raised = none ∧
    (run_daemon_loop [devFront] [envOKW]).2 = 0 := ⟨rfl, rfl⟩

/-- C3 amended: the daemon loop never saves the session regardless of how
many cycles run; `once` mode saves exactly once after its successful poll;
setup saves once after a clean login and once after an accepted 2FA pin. -/
theorem session_persist_by_mode :
    (∀ (cams : List Device) (envs : List PollEnv),
      (run_daemon_loop cams envs).2 = 0) ∧
    (∀ (cams : List Device) (env : OnceEnv), env.startError = none →
      (poll_once cams env.pollEnv).raised = none →
      (run_once cams env).saves = 1) ∧
    (∀ env : SetupEnv, env.startOutcome = StartOutcome.ok →
      (setup_blink env).saves = 1) ∧
    (∀ env : SetupEnv, env.startOutcome = StartOutcome.twoFARequired →
      env.pin.isSome = true → env.pinAccepted = true →
      (setup_blink env).saves = 1) := by
  refine ⟨?_, ?_, ?_, ?_⟩
  · intro cams envs
    exact daemon_loop_saves_zero cams envs
  · intro cams env hs hp
    simp [run_once, hs, hp]
  · intro env h
    simp [setup_blink, h]
  · intro env h hpin hacc
    rcases hp : env.pin with _ | pin
    · rw [hp] at hpin
      simp at hpin
    · simp [setup_blink, h, hp, hacc]

/-- C3 witness: concrete runs of all four persistence situations. -/
theorem session_persist_by_mode_witness :
    (run_daemon_loop [devFront] [envOKW]).2 = 0 ∧
    (run_once [devFront] onceEnvOKW).saves = 1 ∧
    (setup_blink setupOkW).saves = 1 ∧
    (setup_blink setup2faW).saves = 1 :=
  ⟨session_persist_by_mode.1 [devFront] [envOKW],
   session_persist_by_mode.2.1 [devFront] onceEnvOKW rfl rfl,
   session_persist_by_mode.2.2.1 setupOkW rfl,
   session_persist_by_mode.2.2.2 setup2faW rfl rfl rfl⟩

/-- C4 counterexample: in `once` mode a refresh failure — non-fatal per
the spec's error taxonomy — aborts the invocation with no session save and
a non-zero exit status, against the claim that the mode persists exactly
once and exits 0 regardless of non-fatal refresh errors. -/
theorem once_mode_refresh_error_no_save :
    (run_once [devFront] onceEnvRefreshFailW).saves = 0 ∧
    once_exit_code (run_once [devFront] onceEnvRefreshFailW) = 1 := ⟨rfl, rfl⟩

/-- C4 amended: when start and the forced refresh succeed, `once` mode
performs exactly one poll cycle, persists exactly once and exits 0,
regardless of non-fatal upload or capture errors within the cycle. -/
theorem once_mode_one_cycle_one_save_exit_zero (cams : List Device)
    (env : OnceEnv) (hs : env.startError = none)
    (hr : env.pollEnv.refreshError = none) :
    (run_once cams env).cycles = 1 ∧ (run_once cams env).saves = 1 ∧
    once_exit_code (run_once cams env) = 0 := by
  have hraised := raised_none_of_refresh_none cams env.pollEnv hr
  simp [run_once, hs, hraised, once_exit_code]

/-- C4 witness: a concrete successful `once` run. -/
theorem once_mode_one_cycle_one_save_exit_zero_witness :
    (run_once [devFront] onceEnvOKW).cycles = 1 ∧
    (run_once [devFront] onceEnvOKW).saves = 1 ∧
    once_exit_code (run_once [devFront] onceEnvOKW) = 0 :=
  once_mode_one_cycle_one_save_exit_zero [devFront] onceEnvOKW rfl rfl

/-- C5 counterexample: HTTP 202 is a 2xx status, yet the upload returns
failure — and with no log line at all — because the code tests
`resp.status in (200, 201)`, not "any 2xx"; this refutes both the
success-iff-2xx claim and the every-failure-is-logged claim. -/
theorem upload_status_202_failure_unlogged :
    (upload_to_supabase (HttpResult.ok 202) (List.replicate 150 0)
        "cameras/blink-garage-latest.jpg").ok = false ∧
    (upload_to_supabase (HttpResult.ok 202) (List.replicate 150 0)
        "cameras/blink-garage-latest.jpg").logs = [] ∧
    200 ≤ 202 ∧ 202 < 300 := by
  refine ⟨by decide, by decide, by omega, by omega⟩

/-- C5 amended: an upload succeeds exactly when the endpoint returns HTTP
200 or 201; an error response raised as `HTTPError` is a failure logged
with its status code and a 200-character excerpt of the response body
(a non-error response other than 200/201 is an unlogged failure); and the
operation issues exactly one HTTP request, with no internal retry. -/
theorem upload_success_iff_status_200_or_201 (resp : HttpResult) (jpeg : Bytes)
    (path : String) :
    ((upload_to_supabase resp jpeg path).ok = true ↔
      (resp = HttpResult.ok 200 ∨ resp = HttpResult.ok 201)) ∧
    (∀ code body, resp = HttpResult.httpError code body →
      (upload_to_supabase resp jpeg path).logs
        = [LogEntry.uploadFailed code (body.take 200)]) ∧
    (upload_to_supabase resp jpeg path).requests = 1 := by
  refine ⟨upload_ok_iff resp jpeg path, ?_, upload_requests_one resp jpeg path⟩
  intro code body h
  subst h
  rfl

/-- C5 witness: a 201 response succeeds, a 500 error is logged with code
and body excerpt, and an exception still consumes exactly one request. -/
theorem upload_success_iff_status_200_or_201_witness :
    ((upload_to_supabase (HttpResult.ok 201) (List.replicate 150 4)
        "cameras/blink-garage-latest.jpg").ok = true) ∧
    ((upload_to_supabase (HttpResult.httpError 500 ['d', 'e', 'n', 'y'])
        (List.replicate 150 4) "cameras/blink-garage-latest.jpg").logs
      = [LogEntry.uploadFailed 500 (['d', 'e', 'n', 'y'].take 200)]) ∧
    (upload_to_supabase (HttpResult.exn "timeout") (List.replicate 150 4)
        "cameras/blink-garage-latest.jpg").requests = 1 :=
  ⟨(upload_success_iff_status_200_or_201 (HttpResult.ok 201)
      (List.replicate 150 4) "cameras/blink-garage-latest.jpg").1.mpr
      (Or.inr rfl),
   (upload_success_iff_status_200_or_201 (HttpResult.httpError 500 ['d', 'e', 'n', 'y'])
      (List.replicate 150 4) "cameras/blink-garage-latest.jpg").2.1
      500 ['d', 'e', 'n', 'y'] rfl,
   (upload_success_iff_status_200_or_201 (HttpResult.exn "timeout")
      (List.replicate 150 4) "cameras/blink-garage-latest.jpg").2.2⟩

/-- C6 counterexample: with the Blink credential pair unset the process
exits 1, but the message is written by a bare `print` — standard output,
not standard error as the claim states. -/
theorem credentials_message_goes_to_stdout :
    main cfgNoBlinkW []
      = MainAction.exitWith 1 Chan.stdout
          "BLINK_EMAIL and BLINK_PASSWORD are required" ∧
    Chan.stdout ≠ Chan.stderr := ⟨rfl, by decide⟩

/-- C6 amended: whenever the Blink email, the Blink password or the
storage service key is unset, `main` terminates with exit status 1 and a
message on standard output before dispatching to any run mode (hence
before any network activity). -/
theorem missing_credentials_exit_one_stdout (cfg : MainConfig)
    (argv : List String)
    (h : cfg.blinkEmail = "" ∨ cfg.blinkPassword = "" ∨ cfg.supabaseKey = "") :
    ∃ msg, main cfg argv = MainAction.exitWith 1 Chan.stdout msg := by
  by_cases h1 : cfg.blinkEmail = "" ∨ cfg.blinkPassword = ""
  · refine ⟨"BLINK_EMAIL and BLINK_PASSWORD are required", ?_⟩
    rw [main, if_pos h1]
  · have h2 : cfg.supabaseKey = "" := by tauto
    refine ⟨"SUPABASE_SERVICE_ROLE_KEY is required", ?_⟩
    rw [main, if_neg h1, if_pos h2]

/-- C6 witness: a missing service key terminates a `--once` invocation
before dispatch. -/
theorem missing_credentials_exit_one_stdout_witness :
    ∃ msg, main cfgNoKeyW ["--once"]
      = MainAction.exitWith 1 Chan.stdout msg :=
  missing_credentials_exit_one_stdout cfgNoKeyW ["--once"] (Or.inr (Or.inr rfl))

/-- C7: a device whose cached image is missing or under 100 bytes
contributes no uploads, only a warning, and leaves the processing of the
remaining devices unchanged (same enumeration indices, same request
counter); an image of exactly 100 bytes is valid and uploaded; and the
skipped device's warning appears in the cycle's log. -/
theorem small_thumbnail_skipped_rest_processed :
    (∀ (responses : Nat → HttpResult) (i k : Nat) (d : Device)
        (rest : List Device), thumbnailMissing d.image = true →
      (processDevices responses i k (d :: rest)).uploads
          = (processDevices responses (i + 1) k rest).uploads ∧
      (processDevices responses i k (d :: rest)).logs
          = LogEntry.warnNoThumbnail d.name ::
            (processDevices responses (i + 1) k rest).logs) ∧
    (∀ (responses : Nat → HttpResult) (i k : Nat) (name : String) (b : Bytes)
        (rest : List Device), b.length = 100 →
      (processDevices responses i k
          (({ name := name, image := some b } : Device) :: rest)).uploads
        = (if i = 0 then [(devicePath name, b), (SNAPSHOT_PATH, b)]
           else [(devicePath name, b)]) ++
          (processDevices responses (i + 1)
            (k + if i = 0 then 2 else 1) rest).uploads) ∧
    (∀ (cams : List Device) (env : PollEnv) (d : Device),
      env.refreshError = none → d ∈ cams → thumbnailMissing d.image = true →
        LogEntry.warnNoThumbnail d.name ∈ (poll_once cams env).logs) := by
  refine ⟨?_, ?_, ?_⟩
  · intro responses i k d rest h
    rw [processDevices_skip responses i k d rest h]
    exact ⟨rfl, rfl⟩
  · intro responses i k name b rest hb
    have hcond : (b.isEmpty || decide (b.length < 100)) = false := by
      cases b with
      | nil => simp at hb
      | cons x xs =>
        simp at hb ⊢
        omega
    by_cases hi : i = 0
    · subst hi
      simp [processDevices, deviceStep, hcond, upload_requests_one]
    · simp [processDevices, deviceStep, hcond, hi, upload_requests_one]
  · intro cams env d hr hd hmiss
    rw [poll_once_logs_eq _ _ hr]
    exact List.mem_append_left _
      (processDevices_warn_mem env.responses cams 0 0 d hd hmiss)

/-- C7 witness: a 50-byte thumbnail is skipped with a warning while the
next device is processed unchanged, and an exactly-100-byte thumbnail is
uploaded. -/
theorem small_thumbnail_skipped_rest_processed_witness :
    ((processDevices (fun _ => HttpResult.ok 200) 0 0 (devSmall :: [devBack])).uploads
        = (processDevices (fun _ => HttpResult.ok 200) 1 0 [devBack]).uploads ∧
      (processDevices (fun _ => HttpResult.ok 200) 0 0 (devSmall :: [devBack])).logs
        = LogEntry.warnNoThumbnail "Garage" ::
          (processDevices (fun _ => HttpResult.ok 200) 1 0 [devBack]).logs) ∧
    ((processDevices (fun _ => HttpResult.ok 200) 0 0
        (({ name := "Exact", image := some (List.replicate 100 3) } : Device) :: [])).uploads
      = (if (0 : Nat) = 0
         then [(devicePath "Exact", List.replicate 100 3),
               (SNAPSHOT_PATH, List.replicate 100 3)]
         else [(devicePath "Exact", List.replicate 100 3)]) ++
        (processDevices (fun _ => HttpResult.ok 200) 1
          (0 + if (0 : Nat) = 0 then 2 else 1) []).uploads) ∧
    LogEntry.warnNoThumbnail "Garage" ∈ (poll_once [devSmall, devBack] envOKW).logs :=
  ⟨small_thumbnail_skipped_rest_processed.1 (fun _ => HttpResult.ok 200) 0 0
      devSmall [devBack] (by decide),
   small_thumbnail_skipped_rest_processed.2.1 (fun _ => HttpResult.ok 200) 0 0
      "Exact" (List.replicate 100 3) [] (by decide),
   small_thumbnail_skipped_rest_processed.2.2 [devSmall, devBack] envOKW
      devSmall rfl (by decide) (by decide)⟩

/-- C8: the opportunistic-capture decision is the cycle's single random
draw against 0.2 — below the threshold every enumerated device gets a
capture request, otherwise none does — and a per-device capture failure is
logged individually while the remaining requests still happen (the
all-devices conclusion holds for every failure pattern). -/
theorem capture_single_draw_all_or_none (cams : List Device) (env : PollEnv)
    (hr : env.refreshError = none) :
    (env.randomDraw < (0.2 : ℚ) →
      (poll_once cams env).captures = cams.map Device.name) ∧
    (¬ env.randomDraw < (0.2 : ℚ) → (poll_once cams env).captures = []) ∧
    (env.randomDraw < (0.2 : ℚ) →
      ∀ d ∈ cams, ∀ e, env.snapError d.name = some e →
        LogEntry.warnSnapFailed d.name e ∈ (poll_once cams env).logs) := by
  refine ⟨?_, ?_, ?_⟩
  · intro h
    rw [poll_once_captures_eq _ _ hr, if_pos h, captureAll_captures_eq]
  · intro h
    rw [poll_once_captures_eq _ _ hr, if_neg h]
  · intro h d hd e he
    rw [poll_once_logs_eq _ _ hr, if_pos h]
    exact List.mem_append_right _
      (captureAll_warn_mem env.snapError cams d e hd he)

/-- C8 witness: with a draw of 0 both devices get capture requests and the
first device's failure is logged; with a draw of 1/2 no device does. -/
theorem capture_single_draw_all_or_none_witness :
    ((poll_once [devFront, devBack] envCaptureW).captures
        = ["Front Door", "Back/Yard"] ∧
      LogEntry.warnSnapFailed "Front Door" "boom"
        ∈ (poll_once [devFront, devBack] envCaptureW).logs) ∧
    (poll_once [devFront, devBack] envOKW).captures = [] := by
  have hlt : envCaptureW.randomDraw < (0.2 : ℚ) := by
    show (0 : ℚ) < (0.2 : ℚ)
    norm_num
  have hge : ¬ envOKW.randomDraw < (0.2 : ℚ) := by
    show ¬ (1 : ℚ) / 2 < (0.2 : ℚ)
    norm_num
  refine ⟨⟨?_, ?_⟩, ?_⟩
  · exact (capture_single_draw_all_or_none [devFront, devBack] envCaptureW rfl).1 hlt
  · exact (capture_single_draw_all_or_none [devFront, devBack] envCaptureW rfl).2.2
      hlt devFront (by decide) "boom" (by decide)
  · exact (capture_single_draw_all_or_none [devFront, devBack] envOKW rfl).2.1 hge

/-- C9: `upload_to_supabase` is total at its interface — for every byte
payload, path and outcome of the underlying HTTP request, including raised
exceptions of any kind, it propagates nothing and returns `true` exactly
on a 200/201 response, `false` otherwise. -/
theorem upload_never_propagates (resp : HttpResult) (jpeg : Bytes)
    (path : String) :
    (upload_to_supabase resp jpeg path).raised = none ∧
    ((upload_to_supabase resp jpeg path).ok = true ↔
      (resp = HttpResult.ok 200 ∨ resp = HttpResult.ok 201)) :=
  ⟨upload_raised_none resp jpeg path, upload_ok_iff resp jpeg path⟩

/-- C9 witness: a non-HTTP exception (connection reset) is absorbed and
reported as `false`. -/
theorem upload_never_propagates_witness :
    (upload_to_supabase (HttpResult.exn "connection reset")
        (List.replicate 150 4) "cameras/blink-garage-latest.jpg").raised = none ∧
    (upload_to_supabase (HttpResult.exn "connection reset")
        (List.replicate 150 4) "cameras/blink-garage-latest.jpg").ok = false := by
  have h := upload_never_propagates (HttpResult.exn "connection reset")
    (List.replicate 150 4) "cameras/blink-garage-latest.jpg"
  refine ⟨h.1, ?_⟩
  have h2 := h.2
  simp at h2
  exact h2

/-- C10: when the first enumerated device's cached image is absent or
under 100 bytes, no upload of that cycle targets the shared alias path —
no later device's image is substituted, since the alias is written only at
enumeration index 0. -/
theorem alias_untouched_when_primary_invalid (d : Device) (rest : List Device)
    (env : PollEnv) (hr : env.refreshError = none)
    (hmiss : thumbnailMissing d.image = true) :
    ∀ p ∈ (poll_once (d :: rest) env).uploads, p.1 ≠ SNAPSHOT_PATH := by
  intro p hp
  rw [poll_once_uploads_eq _ _ hr,
    processDevices_skip env.responses 0 0 d rest hmiss] at hp
  exact processDevices_no_snapshot env.responses rest 1 0 (by omega) p hp

/-- C10 witness: with a 50-byte primary image, the second device's upload
in that cycle does not target the alias path. -/
theorem alias_untouched_when_primary_invalid_witness :
    (devicePath "Back/Yard", List.replicate 150 9).1 ≠ SNAPSHOT_PATH :=
  alias_untouched_when_primary_invalid devSmall [devBack] envOKW rfl (by decide)
    (devicePath "Back/Yard", List.replicate 150 9) (by decide)

end BlinkSnapshot
